import Mathlib

/-!
Shallow embedding of the call-retry and business-hours scheduling engine of the
`vapi-asylum-law-voice-assistant` repository:

* `src/services/timezone-detector.js` — phone-prefix → IANA timezone resolution,
* `calling-hours-validator.js` — business-hours calendar (luxon-based),
* `src/services/smart-retry-calculator.js` — retry-policy calculator.

Modelling conventions:

* Instants are `Int` seconds since the Unix epoch (1970-01-01 was a Thursday, so
  the epoch day has ISO weekday 4).  Sub-second precision is dropped: luxon's
  `set({second: 0})` preserves a `DateTime`'s millisecond, so every comparison
  the source performs between a `DateTime` and a `set`-derived variant of itself
  has the same millisecond fraction on both sides, and the comparisons coincide
  with the integer-second comparisons used here.
* IANA timezones are modelled as fixed UTC offsets in minutes (`tzOffset : Int`);
  local wall-clock time of instant `t` is `t + tzOffset * 60` seconds.  DST
  transitions are outside this integer model.
* JavaScript truthiness is made explicit: for strings only `""` is falsy, for
  numbers only `0` (and `NaN`, which the concrete data never produces), and
  `undefined`/`null` are `Option.none`.
* `process.env.X` values are passed as explicit `Option String` parameters.
-/

set_option maxRecDepth 100000

namespace RetryEngine

/-- JS `a || b` for an optional string `a` (`undefined`/`null` or `""` falls
through to `b`). -/
def jsOrStr (a : Option String) (b : String) : String :=
  match a with
  | some s => if s = "" then b else s
  | none => b

/-- Characters removed by the detector's cleaning step
`phoneNumber.replace(/[\s\-\(\)]/g, '')`: ASCII whitespace, hyphen and
parentheses. -/
def isStrippedChar (c : Char) : Bool :=
  c = ' ' || c = '-' || c = '(' || c = ')' || c = '\t' || c = '\n' || c = '\r'

/-- The cleaning step of `detectTimezone`/`getCountryCode`. -/
def cleanPhone (s : String) : List Char :=
  s.data.filter (fun c => !isStrippedChar c)

/-- The `TIMEZONE_MAP` object literal of `timezone-detector.js`, as the ordered
list of `key: value` entries exactly as written in the source.  Note `'+93'`
appears twice (Middle East block and South/Central Asia block), both times with
value `Asia/Kabul`. -/
def rawTimezoneEntries : List (String × String) := [
  ("+44", "Europe/London"),
  ("+353", "Europe/Dublin"),
  ("+33", "Europe/Paris"),
  ("+49", "Europe/Berlin"),
  ("+34", "Europe/Madrid"),
  ("+39", "Europe/Rome"),
  ("+31", "Europe/Amsterdam"),
  ("+32", "Europe/Brussels"),
  ("+41", "Europe/Zurich"),
  ("+43", "Europe/Vienna"),
  ("+48", "Europe/Warsaw"),
  ("+46", "Europe/Stockholm"),
  ("+47", "Europe/Oslo"),
  ("+45", "Europe/Copenhagen"),
  ("+358", "Europe/Helsinki"),
  ("+30", "Europe/Athens"),
  ("+90", "Europe/Istanbul"),
  ("+355", "Europe/Tirane"),
  ("+381", "Europe/Belgrade"),
  ("+385", "Europe/Zagreb"),
  ("+380", "Europe/Kiev"),
  ("+375", "Europe/Minsk"),
  ("+40", "Europe/Bucharest"),
  ("+359", "Europe/Sofia"),
  ("+36", "Europe/Budapest"),
  ("+420", "Europe/Prague"),
  ("+421", "Europe/Bratislava"),
  ("+386", "Europe/Ljubljana"),
  ("+382", "Europe/Podgorica"),
  ("+389", "Europe/Skopje"),
  ("+387", "Europe/Sarajevo"),
  ("+383", "Europe/Pristina"),
  ("+373", "Europe/Chisinau"),
  ("+370", "Europe/Vilnius"),
  ("+371", "Europe/Riga"),
  ("+372", "Europe/Tallinn"),
  ("+93", "Asia/Kabul"),
  ("+963", "Asia/Damascus"),
  ("+964", "Asia/Baghdad"),
  ("+98", "Asia/Tehran"),
  ("+967", "Asia/Aden"),
  ("+970", "Asia/Gaza"),
  ("+962", "Asia/Amman"),
  ("+961", "Asia/Beirut"),
  ("+972", "Asia/Jerusalem"),
  ("+966", "Asia/Riyadh"),
  ("+971", "Asia/Dubai"),
  ("+974", "Asia/Qatar"),
  ("+973", "Asia/Bahrain"),
  ("+965", "Asia/Kuwait"),
  ("+968", "Asia/Muscat"),
  ("+92", "Asia/Karachi"),
  ("+91", "Asia/Kolkata"),
  ("+880", "Asia/Dhaka"),
  ("+94", "Asia/Colombo"),
  ("+95", "Asia/Yangon"),
  ("+977", "Asia/Kathmandu"),
  ("+975", "Asia/Thimphu"),
  ("+93", "Asia/Kabul"),
  ("+992", "Asia/Dushanbe"),
  ("+998", "Asia/Tashkent"),
  ("+996", "Asia/Bishkek"),
  ("+993", "Asia/Ashgabat"),
  ("+7", "Asia/Almaty"),
  ("+86", "Asia/Shanghai"),
  ("+852", "Asia/Hong_Kong"),
  ("+853", "Asia/Macau"),
  ("+84", "Asia/Ho_Chi_Minh"),
  ("+66", "Asia/Bangkok"),
  ("+855", "Asia/Phnom_Penh"),
  ("+856", "Asia/Vientiane"),
  ("+60", "Asia/Kuala_Lumpur"),
  ("+65", "Asia/Singapore"),
  ("+62", "Asia/Jakarta"),
  ("+63", "Asia/Manila"),
  ("+82", "Asia/Seoul"),
  ("+850", "Asia/Pyongyang"),
  ("+81", "Asia/Tokyo"),
  ("+886", "Asia/Taipei"),
  ("+249", "Africa/Khartoum"),
  ("+211", "Africa/Juba"),
  ("+252", "Africa/Mogadishu"),
  ("+291", "Africa/Asmara"),
  ("+251", "Africa/Addis_Ababa"),
  ("+234", "Africa/Lagos"),
  ("+233", "Africa/Accra"),
  ("+225", "Africa/Abidjan"),
  ("+221", "Africa/Dakar"),
  ("+220", "Africa/Banjul"),
  ("+224", "Africa/Conakry"),
  ("+232", "Africa/Freetown"),
  ("+231", "Africa/Monrovia"),
  ("+237", "Africa/Douala"),
  ("+243", "Africa/Kinshasa"),
  ("+242", "Africa/Brazzaville"),
  ("+256", "Africa/Kampala"),
  ("+250", "Africa/Kigali"),
  ("+257", "Africa/Bujumbura"),
  ("+254", "Africa/Nairobi"),
  ("+255", "Africa/Dar_es_Salaam"),
  ("+263", "Africa/Harare"),
  ("+27", "Africa/Johannesburg"),
  ("+20", "Africa/Cairo"),
  ("+218", "Africa/Tripoli"),
  ("+216", "Africa/Tunis"),
  ("+213", "Africa/Algiers"),
  ("+212", "Africa/Casablanca"),
  ("+1", "America/New_York"),
  ("+52", "America/Mexico_City"),
  ("+55", "America/Sao_Paulo"),
  ("+54", "America/Buenos_Aires"),
  ("+56", "America/Santiago"),
  ("+57", "America/Bogota"),
  ("+51", "America/Lima"),
  ("+58", "America/Caracas"),
  ("+593", "America/Guayaquil"),
  ("+591", "America/La_Paz"),
  ("+595", "America/Asuncion"),
  ("+598", "America/Montevideo"),
  ("+53", "America/Havana"),
  ("+509", "America/Port-au-Prince"),
  ("+1809", "America/Santo_Domingo"),
  ("+502", "America/Guatemala"),
  ("+503", "America/El_Salvador"),
  ("+504", "America/Tegucigalpa"),
  ("+505", "America/Managua"),
  ("+507", "America/Panama"),
  ("+506", "America/Costa_Rica"),
  ("+61", "Australia/Sydney"),
  ("+64", "Pacific/Auckland"),
  ("+679", "Pacific/Fiji")
]

/-- JavaScript object-literal semantics: keys keep first-occurrence order, a
duplicate key overwrites the previously stored value in place (last value
wins). -/
def jsObjectFromEntries (es : List (String × String)) : List (String × String) :=
  es.foldl
    (fun acc kv =>
      if acc.any (fun p => p.1 = kv.1) then
        acc.map (fun p => if p.1 = kv.1 then (p.1, kv.2) else p)
      else
        acc ++ [kv])
    []

/-- The `TIMEZONE_MAP` object as seen by `Object.keys`/indexing: the entries of
`rawTimezoneEntries` after object-literal duplicate-key semantics (the second
`'+93'` entry collapses onto the first; both carry `Asia/Kabul`).  Written out
literally so that concrete evaluation does not re-run the fold; the lemma
`TIMEZONE_MAP_eq_jsObject` below proves it equal to
`jsObjectFromEntries rawTimezoneEntries`. -/
def TIMEZONE_MAP : List (String × String) := [
  ("+44", "Europe/London"),
  ("+353", "Europe/Dublin"),
  ("+33", "Europe/Paris"),
  ("+49", "Europe/Berlin"),
  ("+34", "Europe/Madrid"),
  ("+39", "Europe/Rome"),
  ("+31", "Europe/Amsterdam"),
  ("+32", "Europe/Brussels"),
  ("+41", "Europe/Zurich"),
  ("+43", "Europe/Vienna"),
  ("+48", "Europe/Warsaw"),
  ("+46", "Europe/Stockholm"),
  ("+47", "Europe/Oslo"),
  ("+45", "Europe/Copenhagen"),
  ("+358", "Europe/Helsinki"),
  ("+30", "Europe/Athens"),
  ("+90", "Europe/Istanbul"),
  ("+355", "Europe/Tirane"),
  ("+381", "Europe/Belgrade"),
  ("+385", "Europe/Zagreb"),
  ("+380", "Europe/Kiev"),
  ("+375", "Europe/Minsk"),
  ("+40", "Europe/Bucharest"),
  ("+359", "Europe/Sofia"),
  ("+36", "Europe/Budapest"),
  ("+420", "Europe/Prague"),
  ("+421", "Europe/Bratislava"),
  ("+386", "Europe/Ljubljana"),
  ("+382", "Europe/Podgorica"),
  ("+389", "Europe/Skopje"),
  ("+387", "Europe/Sarajevo"),
  ("+383", "Europe/Pristina"),
  ("+373", "Europe/Chisinau"),
  ("+370", "Europe/Vilnius"),
  ("+371", "Europe/Riga"),
  ("+372", "Europe/Tallinn"),
  ("+93", "Asia/Kabul"),
  ("+963", "Asia/Damascus"),
  ("+964", "Asia/Baghdad"),
  ("+98", "Asia/Tehran"),
  ("+967", "Asia/Aden"),
  ("+970", "Asia/Gaza"),
  ("+962", "Asia/Amman"),
  ("+961", "Asia/Beirut"),
  ("+972", "Asia/Jerusalem"),
  ("+966", "Asia/Riyadh"),
  ("+971", "Asia/Dubai"),
  ("+974", "Asia/Qatar"),
  ("+973", "Asia/Bahrain"),
  ("+965", "Asia/Kuwait"),
  ("+968", "Asia/Muscat"),
  ("+92", "Asia/Karachi"),
  ("+91", "Asia/Kolkata"),
  ("+880", "Asia/Dhaka"),
  ("+94", "Asia/Colombo"),
  ("+95", "Asia/Yangon"),
  ("+977", "Asia/Kathmandu"),
  ("+975", "Asia/Thimphu"),
  ("+992", "Asia/Dushanbe"),
  ("+998", "Asia/Tashkent"),
  ("+996", "Asia/Bishkek"),
  ("+993", "Asia/Ashgabat"),
  ("+7", "Asia/Almaty"),
  ("+86", "Asia/Shanghai"),
  ("+852", "Asia/Hong_Kong"),
  ("+853", "Asia/Macau"),
  ("+84", "Asia/Ho_Chi_Minh"),
  ("+66", "Asia/Bangkok"),
  ("+855", "Asia/Phnom_Penh"),
  ("+856", "Asia/Vientiane"),
  ("+60", "Asia/Kuala_Lumpur"),
  ("+65", "Asia/Singapore"),
  ("+62", "Asia/Jakarta"),
  ("+63", "Asia/Manila"),
  ("+82", "Asia/Seoul"),
  ("+850", "Asia/Pyongyang"),
  ("+81", "Asia/Tokyo"),
  ("+886", "Asia/Taipei"),
  ("+249", "Africa/Khartoum"),
  ("+211", "Africa/Juba"),
  ("+252", "Africa/Mogadishu"),
  ("+291", "Africa/Asmara"),
  ("+251", "Africa/Addis_Ababa"),
  ("+234", "Africa/Lagos"),
  ("+233", "Africa/Accra"),
  ("+225", "Africa/Abidjan"),
  ("+221", "Africa/Dakar"),
  ("+220", "Africa/Banjul"),
  ("+224", "Africa/Conakry"),
  ("+232", "Africa/Freetown"),
  ("+231", "Africa/Monrovia"),
  ("+237", "Africa/Douala"),
  ("+243", "Africa/Kinshasa"),
  ("+242", "Africa/Brazzaville"),
  ("+256", "Africa/Kampala"),
  ("+250", "Africa/Kigali"),
  ("+257", "Africa/Bujumbura"),
  ("+254", "Africa/Nairobi"),
  ("+255", "Africa/Dar_es_Salaam"),
  ("+263", "Africa/Harare"),
  ("+27", "Africa/Johannesburg"),
  ("+20", "Africa/Cairo"),
  ("+218", "Africa/Tripoli"),
  ("+216", "Africa/Tunis"),
  ("+213", "Africa/Algiers"),
  ("+212", "Africa/Casablanca"),
  ("+1", "America/New_York"),
  ("+52", "America/Mexico_City"),
  ("+55", "America/Sao_Paulo"),
  ("+54", "America/Buenos_Aires"),
  ("+56", "America/Santiago"),
  ("+57", "America/Bogota"),
  ("+51", "America/Lima"),
  ("+58", "America/Caracas"),
  ("+593", "America/Guayaquil"),
  ("+591", "America/La_Paz"),
  ("+595", "America/Asuncion"),
  ("+598", "America/Montevideo"),
  ("+53", "America/Havana"),
  ("+509", "America/Port-au-Prince"),
  ("+1809", "America/Santo_Domingo"),
  ("+502", "America/Guatemala"),
  ("+503", "America/El_Salvador"),
  ("+504", "America/Tegucigalpa"),
  ("+505", "America/Managua"),
  ("+507", "America/Panama"),
  ("+506", "America/Costa_Rica"),
  ("+61", "Australia/Sydney"),
  ("+64", "Pacific/Auckland"),
  ("+679", "Pacific/Fiji")
]

/-- `Object.keys(TIMEZONE_MAP)`: the keys in insertion order. -/
def timezoneKeys : List String := TIMEZONE_MAP.map Prod.fst

/-- JS property read `TIMEZONE_MAP[code]` for a key known to be present
(`"undefined"` stands for the absent-key case, which the detector never
reaches because it only looks up codes returned by the prefix scan). -/
def jsGet (m : List (String × String)) (k : String) : String :=
  match m.lookup k with
  | some v => v
  | none => "undefined"

/-- Insertion step of the length-descending sort of the dialing codes,
realising the comparator `(a, b) => b.length - a.length`. -/
def insertByLenDesc (x : String) : List String → List String
  | [] => [x]
  | y :: ys => if y.length ≤ x.length then x :: y :: ys else y :: insertByLenDesc x ys

/-- `Object.keys(TIMEZONE_MAP).sort((a, b) => b.length - a.length)`: a sort of
the key list that is descending in string length. -/
def sortByLenDesc : List String → List String
  | [] => []
  | x :: xs => insertByLenDesc x (sortByLenDesc xs)

/-- The `sortedCodes` local of `detectTimezone`/`getCountryCode`. -/
def sortedCodes : List String := sortByLenDesc timezoneKeys

/-- The scanning loop `for (const code of sortedCodes) if
(cleaned.startsWith(code)) ...`: first code in the list that is a prefix of
the cleaned number. -/
def firstMatch (codes : List String) (cleaned : List Char) : Option String :=
  match codes with
  | [] => none
  | c :: rest => if c.data <+: cleaned then some c else firstMatch rest cleaned

/-- `process.env.DEFAULT_TIMEZONE || 'Europe/London'`. -/
def envDefaultTz (env : Option String) : String := jsOrStr env "Europe/London"

/-- `TimezoneDetector.detectTimezone` (timezone-detector.js, lines 177-200).
`env` is `process.env.DEFAULT_TIMEZONE`; `phone` is the argument, with
`none` for `undefined`/`null` (JS `!phoneNumber` is also true for `""`). -/
def detectTimezone (env : Option String) (phone : Option String) : String :=
  match phone with
  | none => envDefaultTz env
  | some p =>
    if p = "" then envDefaultTz env
    else
      match firstMatch sortedCodes (cleanPhone p) with
      | some code => jsGet TIMEZONE_MAP code
      | none => envDefaultTz env

/-- `TimezoneDetector.getCountryCode` (timezone-detector.js, lines 207-219). -/
def getCountryCode (phone : Option String) : Option String :=
  match phone with
  | none => none
  | some p =>
    if p = "" then none
    else firstMatch sortedCodes (cleanPhone p)

/-! ## Calling-hours validator (`calling-hours-validator.js`) -/

/-- The state built by `CallingHoursValidator`'s constructor: parsed business
window and allowed ISO weekdays (1 = Monday … 7 = Sunday). -/
structure CallingHoursConfig where
  startHour : Nat
  startMinute : Nat
  endHour : Nat
  endMinute : Nat
  businessDays : List Int
deriving DecidableEq, Repr

/-- JS `String.prototype.split` on a single separator character, over the
character list of the string (`"".split(c)` is `[""]`, as in JS). -/
def splitOnChar (sep : Char) : List Char → List (List Char)
  | [] => [[]]
  | c :: cs =>
    let r := splitOnChar sep cs
    if c = sep then [] :: r
    else
      match r with
      | [] => [[c]]
      | h :: t => (c :: h) :: t

/-- JS `parseInt` restricted to the shapes the validator feeds it: skip leading
ASCII whitespace, read a run of decimal digits; `none` models `NaN` (no
digits). -/
def jsParseNat (l : List Char) : Option Nat :=
  let l := l.dropWhile (fun c => c = ' ' || c = '\t' || c = '\n' || c = '\r')
  let ds := l.takeWhile Char.isDigit
  if ds.isEmpty then none
  else some (ds.foldl (fun n c => n * 10 + (c.toNat - 48)) 0)

/-- `env?.split(':')[idx] || dflt`: field `idx` of the colon-split environment
value, falling back to `dflt` when the variable is unset, the field is missing,
or the field is the empty string. -/
def clockField (env : Option String) (idx : Nat) (dflt : List Char) : List Char :=
  match env with
  | none => dflt
  | some s =>
    match (splitOnChar ':' s.data).get? idx with
    | some seg => if seg.isEmpty then dflt else seg
    | none => dflt

/-- The `CallingHoursValidator` constructor (calling-hours-validator.js,
lines 224-234).  The three arguments are `process.env.BUSINESS_HOURS_START`,
`BUSINESS_HOURS_END` and `BUSINESS_DAYS`.  Modelling notes: the source stores
`NaN` where a field fails to parse — here an hour/minute `NaN` makes the
constructor return `none` (no claim exercises that path), and a `NaN` weekday
entry is dropped from `businessDays` (a `NaN` array element can never equal
`dt.weekday` in an `includes` test, so dropping it preserves every check the
validator performs).  No validation of any kind is performed: any parseable
window and day set is accepted as-is. -/
def mkCallingHoursValidator (startEnv endEnv daysEnv : Option String) :
    Option CallingHoursConfig :=
  let daysString : String := jsOrStr daysEnv "1,2,3,4,5"
  let days : List Int :=
    ((splitOnChar ',' daysString.data).map
      (fun d => jsParseNat (d.dropWhile (fun c => c = ' ') |>.reverse.dropWhile (fun c => c = ' ') |>.reverse))).filterMap
      (fun o => o.map Int.ofNat)
  match jsParseNat (clockField startEnv 0 "9".data),
        jsParseNat (clockField startEnv 1 "0".data),
        jsParseNat (clockField endEnv 0 "19".data),
        jsParseNat (clockField endEnv 1 "0".data) with
  | some sh, some sm, some eh, some em => some ⟨sh, sm, eh, em, days⟩
  | _, _, _, _ => none

/-- The config produced from an empty environment: 09:00-19:00, Monday-Friday
(the source's defaults). -/
def defaultValidator : CallingHoursConfig := ⟨9, 0, 19, 0, [1, 2, 3, 4, 5]⟩

/-- Local wall-clock seconds of instant `t` under fixed offset `tzOffset`
minutes (the model of `DateTime.fromJSDate(t).setZone(timezone)`). -/
def localOf (t tzOffset : Int) : Int := t + tzOffset * 60

/-- Local calendar day index (days since the epoch) of a local-seconds value. -/
def localDay (l : Int) : Int := l / 86400

/-- Seconds since local midnight of a local-seconds value. -/
def secondsOfDay (l : Int) : Int := l % 86400

/-- luxon's `dt.weekday`: ISO weekday (1 = Monday … 7 = Sunday) of a
local-seconds value; epoch day 0 (1970-01-01) is a Thursday. -/
def localWeekday (l : Int) : Int := (localDay l + 3) % 7 + 1

/-- The instant of the configured window start on the local day of `l`
(`dt.set({hour: startHour, minute: startMinute, second: 0})`), in seconds of
local time. -/
def windowStartSecs (cfg : CallingHoursConfig) : Int :=
  (cfg.startHour : Int) * 3600 + (cfg.startMinute : Int) * 60

/-- The configured window end as seconds since local midnight. -/
def windowEndSecs (cfg : CallingHoursConfig) : Int :=
  (cfg.endHour : Int) * 3600 + (cfg.endMinute : Int) * 60

/-- `CallingHoursValidator.isWithinCallingHours` (calling-hours-validator.js,
lines 242-257): business-day test on the local weekday, then
`dt >= startOfDay && dt < endOfDay` where `startOfDay`/`endOfDay` are `dt`
with the wall-clock time replaced by the window bounds. -/
def isWithinCallingHours (cfg : CallingHoursConfig) (t tzOffset : Int) : Bool :=
  let l := localOf t tzOffset
  if cfg.businessDays.contains (localWeekday l) then
    let startOfDay := localDay l * 86400 + windowStartSecs cfg - tzOffset * 60
    let endOfDay := localDay l * 86400 + windowEndSecs cfg - tzOffset * 60
    decide (startOfDay ≤ t) && decide (t < endOfDay)
  else false

/-- The `while (!businessDays.includes(nextDay.weekday) && maxIterations > 0)`
loop of `getNextValidCallingTime`, on local-seconds values: advance whole days
until an allowed weekday is hit or the fuel (7) runs out. -/
def nextBusinessDayLoop (cfg : CallingHoursConfig) : Nat → Int → Int
  | 0, n => n
  | fuel + 1, n =>
    if cfg.businessDays.contains (localWeekday n) then n
    else nextBusinessDayLoop cfg fuel (n + 86400)

/-- `CallingHoursValidator.getNextValidCallingTime` (calling-hours-validator.js,
lines 265-292): identity when already callable; today's window start when the
instant is before it on a business day; otherwise the window start of the next
allowed weekday (bounded scan of 7 days). -/
def getNextValidCallingTime (cfg : CallingHoursConfig) (t tzOffset : Int) : Int :=
  if isWithinCallingHours cfg t tzOffset then t
  else
    let l := localOf t tzOffset
    let todayStart := localDay l * 86400 + windowStartSecs cfg - tzOffset * 60
    if decide (t < todayStart) && cfg.businessDays.contains (localWeekday l) then
      todayStart
    else
      nextBusinessDayLoop cfg 7 ((localDay l + 1) * 86400 + windowStartSecs cfg)
        - tzOffset * 60

/-- Result record of `calculateDelayWithinHours`. -/
structure DelayCalcResult where
  withinHours : Bool
  adjustedTime : Int
  originalDelay : Int
  adjustedDelay : Int
deriving DecidableEq, Repr

/-- JS `Math.round((b - a) / 60000)` on a millisecond difference, here on a
second difference divided by 60: round half toward positive infinity. -/
def roundMinutes (diffSecs : Int) : Int := (diffSecs + 30) / 60

/-- `CallingHoursValidator.calculateDelayWithinHours` (calling-hours-validator.js,
lines 300-323): target is `now + delayMinutes`; if callable it is returned with
the nominal delay, otherwise the next valid instant is returned together with
the rounded real gap from `now`. -/
def calculateDelayWithinHours (cfg : CallingHoursConfig) (delayMinutes : Int)
    (tzOffset : Int) (now : Int) : DelayCalcResult :=
  let targetTime := now + delayMinutes * 60
  if isWithinCallingHours cfg targetTime tzOffset then
    ⟨true, targetTime, delayMinutes, delayMinutes⟩
  else
    let nextValidTime := getNextValidCallingTime cfg targetTime tzOffset
    ⟨false, nextValidTime, delayMinutes, roundMinutes (nextValidTime - now)⟩

/-! ## Smart retry calculator (`src/services/smart-retry-calculator.js`) -/

/-- The `'default'` entry of `RETRY_DELAYS`. -/
def defaultDelays : List Int := [60, 180, 360]

/-- The `RETRY_DELAYS` table (smart-retry-calculator.js, lines 15-30). -/
def RETRY_DELAYS : List (String × List Int) := [
  ("customer-did-not-answer", [30, 120, 240]),
  ("customer-ended-call", [120, 360, 1440]),
  ("customer-busy", [60, 240, 720]),
  ("assistant-error", [5, 15, 30]),
  ("default", defaultDelays)
]

/-- `MAX_ATTEMPTS` (smart-retry-calculator.js, line 33). -/
def MAX_ATTEMPTS : Int := 3

/-- Line 64: `RETRY_DELAYS[endedReason] || RETRY_DELAYS['default']`.
`endedReason` is `none` when the caller passed no reason (JS `undefined`
indexing misses). -/
def delaysFor (endedReason : Option String) : List Int :=
  match endedReason.bind (fun r => RETRY_DELAYS.lookup r) with
  | some d => d
  | none => defaultDelays

/-- JS `delays[i] || delays[delays.length - 1]` (line 65): an out-of-range or
negative index yields `undefined`, a zero element is falsy; either way the
expression falls through to the last element. -/
def jsIndexOrLast (delays : List Int) (i : Int) : Int :=
  match (if 0 ≤ i then delays.get? i.toNat else none) with
  | some d => if d = 0 then delays.getLastD 0 else d
  | none => delays.getLastD 0

/-- The delay the calculator applies for a reason and attempt index
(the composition of lines 64-65). -/
def delayForAttempt (endedReason : Option String) (i : Int) : Int :=
  jsIndexOrLast (delaysFor endedReason) i

/-- The destructured `options` argument of `calculateRetry`. -/
structure RetryOptions where
  endedReason : Option String
  currentAttempts : Int
  phoneNumber : Option String
  timezone : Option String
deriving Repr

/-- The retry-branch payload of `calculateRetry` (its `shouldRetry: true`
object, minus the derived `nextCallTimeISO` rendering of `nextCallTime`). -/
structure RetryInfo where
  attempts : Int
  maxAttempts : Int
  originalDelayMinutes : Int
  adjustedDelayMinutes : Int
  nextCallTime : Int
  timezone : String
  wasAdjustedForBusinessHours : Bool
  endedReason : Option String
deriving DecidableEq, Repr

/-- The exhausted-branch payload of `calculateRetry` (its
`shouldRetry: false` object). -/
structure ExhaustedInfo where
  reason : String
  attempts : Int
  maxAttempts : Int
  action : String
deriving DecidableEq, Repr

/-- The two shapes `calculateRetry` returns (`shouldRetry` true/false). -/
inductive RetryResult where
  | exhausted (e : ExhaustedInfo)
  | retry (r : RetryInfo)
deriving DecidableEq, Repr

/-- `shouldRetry` of a `calculateRetry` result. -/
def RetryResult.shouldRetry : RetryResult → Bool
  | .exhausted _ => false
  | .retry _ => true

/-- Line 50: `providedTimezone || timezoneDetector.detectTimezone(phoneNumber)`.
`env` is `process.env.DEFAULT_TIMEZONE`. -/
def resolvedTimezone (env : Option String) (o : RetryOptions) : String :=
  jsOrStr o.timezone (detectTimezone env o.phoneNumber)

/-- `SmartRetryCalculator.calculateRetry` (smart-retry-calculator.js,
lines 41-83).  `zoneOffset` abstracts the IANA-zone database as a fixed
offset (minutes) per zone name; `now` is the instant `DateTime.now()`
observes. -/
def calculateRetry (cfg : CallingHoursConfig) (zoneOffset : String → Int)
    (env : Option String) (now : Int) (o : RetryOptions) : RetryResult :=
  let timezone := resolvedTimezone env o
  if MAX_ATTEMPTS ≤ o.currentAttempts then
    .exhausted ⟨"max_attempts_reached", o.currentAttempts, MAX_ATTEMPTS, "send_sms_fallback"⟩
  else
    let delayMinutes := delayForAttempt o.endedReason o.currentAttempts
    let r := calculateDelayWithinHours cfg delayMinutes (zoneOffset timezone) now
    .retry ⟨o.currentAttempts + 1, MAX_ATTEMPTS, delayMinutes, r.adjustedDelay,
      r.adjustedTime, timezone, !r.withinHours, o.endedReason⟩

/-! ## Helper lemmas -/

/-- `TIMEZONE_MAP` is exactly the object that JavaScript builds from the
source's entry list: first-occurrence key order, last value wins for the
duplicated `'+93'` key. -/
theorem TIMEZONE_MAP_eq_jsObject : jsObjectFromEntries rawTimezoneEntries = TIMEZONE_MAP := by
  decide

/-- Two prefixes of a common list are comparable. -/
theorem prefixTotalOfCommon {α : Type} {l₁ l₂ l₃ : List α}
    (h₁ : l₁ <+: l₃) (h₂ : l₂ <+: l₃) : l₁ <+: l₂ ∨ l₂ <+: l₁ := by
  rcases le_total l₁.length l₂.length with h | h
  · left
    rw [List.prefix_iff_eq_take] at h₁ h₂ ⊢
    rw [h₂, List.take_take, Nat.min_eq_left h]
    exact h₁
  · right
    rw [List.prefix_iff_eq_take] at h₁ h₂ ⊢
    rw [h₁, List.take_take, Nat.min_eq_left h]
    exact h₂

theorem mem_insertByLenDesc {x a : String} {l : List String} :
    a ∈ insertByLenDesc x l ↔ a = x ∨ a ∈ l := by
  induction l with
  | nil => simp [insertByLenDesc]
  | cons y ys ih =>
    by_cases h : y.length ≤ x.length
    · simp [insertByLenDesc, h]
    · simp only [insertByLenDesc, if_neg h, List.mem_cons, ih]
      tauto

theorem pairwise_insertByLenDesc {x : String} {l : List String}
    (h : l.Pairwise (fun a b => b.length ≤ a.length)) :
    (insertByLenDesc x l).Pairwise (fun a b => b.length ≤ a.length) := by
  induction l with
  | nil => simp [insertByLenDesc]
  | cons y ys ih =>
    rcases List.pairwise_cons.mp h with ⟨hy, hys⟩
    by_cases hxy : y.length ≤ x.length
    · rw [insertByLenDesc, if_pos hxy]
      refine List.pairwise_cons.mpr ⟨?_, h⟩
      intro b hb
      rcases List.mem_cons.mp hb with rfl | hb
      · exact hxy
      · exact le_trans (hy b hb) hxy
    · rw [insertByLenDesc, if_neg hxy]
      refine List.pairwise_cons.mpr ⟨?_, ih hys⟩
      intro b hb
      rcases mem_insertByLenDesc.mp hb with rfl | hb
      · omega
      · exact hy b hb

theorem mem_sortByLenDesc {a : String} {l : List String} :
    a ∈ sortByLenDesc l ↔ a ∈ l := by
  induction l with
  | nil => simp [sortByLenDesc]
  | cons y ys ih => simp [sortByLenDesc, mem_insertByLenDesc, ih]

theorem pairwise_sortByLenDesc (l : List String) :
    (sortByLenDesc l).Pairwise (fun a b => b.length ≤ a.length) := by
  induction l with
  | nil => simp [sortByLenDesc]
  | cons y ys ih => exact pairwise_insertByLenDesc ih

/-- The scan over a length-descending code list returns exactly the code of
maximal length among those that are prefixes of the cleaned number. -/
theorem firstMatch_eq_some_of_maximal {codes : List String} {s : List Char} {c : String}
    (hp : codes.Pairwise (fun a b => b.length ≤ a.length))
    (hm : c ∈ codes) (hpre : c.data <+: s)
    (hmax : ∀ d ∈ codes, d.data <+: s → d.length ≤ c.length) :
    firstMatch codes s = some c := by
  induction codes with
  | nil => cases hm
  | cons x xs ih =>
    rcases List.pairwise_cons.mp hp with ⟨hx_all, hxs⟩
    by_cases hx : x.data <+: s
    · rw [firstMatch, if_pos hx]
      rcases List.mem_cons.mp hm with rfl | hmem
      · rfl
      · have h1 : x.length ≤ c.length := hmax x (List.mem_cons_self x xs) hx
        have h2 : c.length ≤ x.length := hx_all c hmem
        have hlen : x.data.length = c.data.length := le_antisymm h1 h2
        have hdata : x.data = c.data := by
          rcases prefixTotalOfCommon hx hpre with hxc | hcx
          · exact hxc.eq_of_length hlen
          · exact (hcx.eq_of_length hlen.symm).symm
        exact congrArg some (String.ext hdata)
    · rw [firstMatch, if_neg hx]
      have hmem : c ∈ xs := by
        rcases List.mem_cons.mp hm with rfl | hmem
        · exact absurd hpre hx
        · exact hmem
      exact ih hxs hmem (fun d hd hdp => hmax d (List.mem_cons_of_mem x hd) hdp)

/-- Every dialing code in the table is a nonempty string. -/
theorem timezoneKeys_ne_empty : ∀ c ∈ timezoneKeys, c ≠ "" := by decide

/-- The only table key that extends `"+1809"` is `"+1809"` itself. -/
theorem key_of_plus1809 : ∀ d ∈ timezoneKeys, "+1809".data <+: d.data → d = "+1809" := by
  decide

/-- The only table keys that extend `"+1"` are `"+1"` and `"+1809"`. -/
theorem key_of_plus1 : ∀ d ∈ timezoneKeys, "+1".data <+: d.data → d = "+1" ∨ d = "+1809" := by
  decide

/-- `detectTimezone` returns the table value of any matching dialing code of
maximal length. -/
theorem detectTimezone_eq_of_maximal (env : Option String) (p : String) (c : String)
    (hk : c ∈ timezoneKeys) (hpre : c.data <+: cleanPhone p)
    (hmax : ∀ d ∈ timezoneKeys, d.data <+: cleanPhone p → d.length ≤ c.length) :
    detectTimezone env (some p) = jsGet TIMEZONE_MAP c := by
  have hpne : p ≠ "" := by
    intro hp
    subst hp
    have hcd : c.data = [] := List.prefix_nil.mp hpre
    exact timezoneKeys_ne_empty c hk (String.ext hcd)
  have hfm : firstMatch sortedCodes (cleanPhone p) = some c := by
    refine firstMatch_eq_some_of_maximal (pairwise_sortByLenDesc timezoneKeys)
      (mem_sortByLenDesc.mpr hk) hpre ?_
    intro d hd hdp
    exact hmax d (mem_sortByLenDesc.mp hd) hdp
  rw [detectTimezone, if_neg hpne, hfm]

/-- Characterisation of the callable test: allowed local weekday and local
wall-clock time in the half-open window `[start, end)`. -/
theorem isWithinCallingHours_iff (cfg : CallingHoursConfig) (t tzOffset : Int) :
    isWithinCallingHours cfg t tzOffset = true ↔
      (localWeekday (localOf t tzOffset) ∈ cfg.businessDays ∧
       windowStartSecs cfg ≤ secondsOfDay (localOf t tzOffset) ∧
       secondsOfDay (localOf t tzOffset) < windowEndSecs cfg) := by
  rw [isWithinCallingHours]
  by_cases hbd : localWeekday (localOf t tzOffset) ∈ cfg.businessDays
  · rw [if_pos (by simpa using hbd)]
    simp only [Bool.and_eq_true, decide_eq_true_iff]
    unfold localOf localDay secondsOfDay
    constructor
    · rintro ⟨h1, h2⟩
      exact ⟨hbd, by omega, by omega⟩
    · rintro ⟨-, h2, h3⟩
      exact ⟨by omega, by omega⟩
  · rw [if_neg (by simpa using hbd)]
    simp [hbd]

/-- The bounded next-business-day scan never moves backwards. -/
theorem le_nextBusinessDayLoop (cfg : CallingHoursConfig) :
    ∀ (fuel : Nat) (n : Int), n ≤ nextBusinessDayLoop cfg fuel n := by
  intro fuel
  induction fuel with
  | zero => intro n; exact le_refl n
  | succ f ih =>
    intro n
    rw [nextBusinessDayLoop]
    split
    · exact le_refl n
    · exact le_trans (by omega) (ih (n + 86400))

/-- An index at or beyond the end of the delay list falls through to the last
element. -/
theorem jsIndexOrLast_of_ge (l : List Int) (i : Int) (h : (l.length : Int) ≤ i) :
    jsIndexOrLast l i = l.getLastD 0 := by
  have h0 : 0 ≤ i := le_trans (by positivity) h
  have hn : l.get? i.toNat = none := List.get?_eq_none.mpr (by omega)
  rw [jsIndexOrLast, if_pos h0, hn]

/-- The delay table resolves every reason — known, unknown or absent — to one
of its five configured delay lists. -/
theorem delaysFor_cases (r : Option String) :
    delaysFor r = [30, 120, 240] ∨ delaysFor r = [120, 360, 1440] ∨
    delaysFor r = [60, 240, 720] ∨ delaysFor r = [5, 15, 30] ∨
    delaysFor r = [60, 180, 360] := by
  rcases r with _ | s
  · right; right; right; right; rfl
  · simp only [delaysFor, Option.bind, RETRY_DELAYS, List.lookup, defaultDelays]
    split
    next d heq => repeat' split at heq <;> simp_all
    next heq => simp

/-! ## Claim theorems -/

/-- C5: for every instant and timezone offset, `isWithinCallingHours` returns
true if and only if the instant's local weekday is in the allowed business
days and its local wall-clock time lies in the half-open window
`[startTime, endTime)` — inclusive of the start boundary, exclusive of the
end boundary. -/
theorem C5_isCallable_iff_window :
    ∀ (cfg : CallingHoursConfig) (t tzOffset : Int),
      isWithinCallingHours cfg t tzOffset = true ↔
        (localWeekday (localOf t tzOffset) ∈ cfg.businessDays ∧
         windowStartSecs cfg ≤ secondsOfDay (localOf t tzOffset) ∧
         secondsOfDay (localOf t tzOffset) < windowEndSecs cfg) :=
  fun cfg t tzOffset => isWithinCallingHours_iff cfg t tzOffset

/-- C6: `getNextValidCallingTime` is the identity on instants that are already
within calling hours. -/
theorem C6_idempotent_on_callable :
    ∀ (cfg : CallingHoursConfig) (t tzOffset : Int),
      isWithinCallingHours cfg t tzOffset = true →
      getNextValidCallingTime cfg t tzOffset = t := by
  intro cfg t tzOffset h
  rw [getNextValidCallingTime, if_pos h]

/-- Witness for C6 at Monday 1970-01-05 09:00 UTC (instant 378000) with the
default 09:00-19:00 Monday-Friday window and offset 0. -/
theorem C6_idempotent_on_callable_witness :
    isWithinCallingHours defaultValidator 378000 0 = true ∧
    getNextValidCallingTime defaultValidator 378000 0 = 378000 :=
  ⟨by decide, C6_idempotent_on_callable defaultValidator 378000 0 (by decide)⟩

/-- C7: `getNextValidCallingTime` never returns an instant earlier than its
input, for every instant, timezone offset and configuration. -/
theorem C7_next_callable_monotone :
    ∀ (cfg : CallingHoursConfig) (t tzOffset : Int),
      t ≤ getNextValidCallingTime cfg t tzOffset := by
  intro cfg t tzOffset
  rw [getNextValidCallingTime]
  split
  · exact le_refl t
  · dsimp only
    split
    next hcond =>
      rw [Bool.and_eq_true] at hcond
      exact le_of_lt (of_decide_eq_true hcond.1)
    next hcond =>
      have h1 : (localDay (localOf t tzOffset) + 1) * 86400 + windowStartSecs cfg ≤
          nextBusinessDayLoop cfg 7 ((localDay (localOf t tzOffset) + 1) * 86400 + windowStartSecs cfg) :=
        le_nextBusinessDayLoop cfg 7 _
      have h2 : 0 ≤ windowStartSecs cfg := by
        unfold windowStartSecs
        positivity
      unfold localDay localOf at h1 ⊢
      omega

/-- C2: `detectTimezone` strips separators and matches dialing codes from
longest to shortest: the matching table code of maximal length determines the
returned timezone; in particular a cleaned number starting `+1809` resolves to
America/Santo_Domingo, and a cleaned `+1` number not starting `+1809` resolves
to America/New_York. -/
theorem C2_longest_prefix_wins :
    (∀ (env : Option String) (p c : String), c ∈ timezoneKeys →
      c.data <+: cleanPhone p →
      (∀ d ∈ timezoneKeys, d.data <+: cleanPhone p → d.length ≤ c.length) →
      detectTimezone env (some p) = jsGet TIMEZONE_MAP c) ∧
    (∀ (env : Option String) (p : String) (rest : List Char),
      cleanPhone p = "+1809".data ++ rest →
      detectTimezone env (some p) = "America/Santo_Domingo") ∧
    (∀ (env : Option String) (p : String) (rest : List Char),
      cleanPhone p = "+1".data ++ rest → ¬("+1809".data <+: cleanPhone p) →
      detectTimezone env (some p) = "America/New_York") := by
  refine ⟨detectTimezone_eq_of_maximal, ?_, ?_⟩
  · intro env p rest h
    have hpre : "+1809".data <+: cleanPhone p := h ▸ List.prefix_append _ _
    have hmax : ∀ d ∈ timezoneKeys, d.data <+: cleanPhone p → d.length ≤ "+1809".length := by
      intro d hd hdp
      rcases prefixTotalOfCommon hdp hpre with h1 | h2
      · exact h1.length_le
      · rw [key_of_plus1809 d hd h2]
    rw [detectTimezone_eq_of_maximal env p "+1809" (by decide) hpre hmax]
    decide
  · intro env p rest h hno
    have hpre : "+1".data <+: cleanPhone p := h ▸ List.prefix_append _ _
    have hmax : ∀ d ∈ timezoneKeys, d.data <+: cleanPhone p → d.length ≤ "+1".length := by
      intro d hd hdp
      rcases prefixTotalOfCommon hdp hpre with h1 | h2
      · exact h1.length_le
      · rcases key_of_plus1 d hd h2 with rfl | rfl
        · exact le_refl _
        · exact absurd hdp hno
    rw [detectTimezone_eq_of_maximal env p "+1" (by decide) hpre hmax]
    decide

/-- Witness for C2: the number `"+1 (809) 555-1234"` cleans to
`+18095551234` and resolves through the longer `+1809` code. -/
theorem C2_longest_prefix_wins_witness :
    cleanPhone "+1 (809) 555-1234" = "+1809".data ++ "5551234".data ∧
    detectTimezone none (some "+1 (809) 555-1234") = "America/Santo_Domingo" :=
  ⟨by decide, C2_longest_prefix_wins.2.1 none "+1 (809) 555-1234" "5551234".data (by decide)⟩

/-- C10: a missing (`undefined`/`null`) or empty phone number makes
`detectTimezone` return the default timezone (Europe/London when
DEFAULT_TIMEZONE is unset) and makes `getCountryCode` return `null`; neither
throws. -/
theorem C10_total_on_absent_input :
    ∀ (p : Option String), (p = none ∨ p = some "") →
      detectTimezone none p = "Europe/London" ∧ getCountryCode p = none := by
  rintro p (rfl | rfl)
  · exact ⟨rfl, rfl⟩
  · exact ⟨by decide, by decide⟩

/-- Witness for C10 at the empty-string input. -/
theorem C10_total_on_absent_input_witness :
    (some "" = (none : Option String) ∨ some "" = some "") ∧
    detectTimezone none (some "") = "Europe/London" ∧ getCountryCode (some "") = none :=
  ⟨Or.inr rfl, C10_total_on_absent_input (some "") (Or.inr rfl)⟩

/-- C1: at `attemptsSoFar = MAX_ATTEMPTS - 1` the calculator still returns a
Retry decision, and at any `attemptsSoFar >= MAX_ATTEMPTS` it returns an
Exhausted decision carrying `attempts = attemptsSoFar` and the SMS fallback
action, uniformly for every end reason. -/
theorem C1_exhaustion_boundary :
    (∀ (cfg : CallingHoursConfig) (zoneOffset : String → Int) (env : Option String)
        (now : Int) (reason phone tzp : Option String),
      (calculateRetry cfg zoneOffset env now
        ⟨reason, MAX_ATTEMPTS - 1, phone, tzp⟩).shouldRetry = true) ∧
    (∀ (cfg : CallingHoursConfig) (zoneOffset : String → Int) (env : Option String)
        (now : Int) (reason phone tzp : Option String) (a : Int), MAX_ATTEMPTS ≤ a →
      calculateRetry cfg zoneOffset env now ⟨reason, a, phone, tzp⟩ =
        .exhausted ⟨"max_attempts_reached", a, MAX_ATTEMPTS, "send_sms_fallback"⟩) := by
  constructor
  · intro cfg zo env now reason phone tzp
    rfl
  · intro cfg zo env now reason phone tzp a h
    simp only [calculateRetry]
    split
    · rfl
    · next hc => exact absurd h hc

/-- Witness for C1 at `attemptsSoFar = 3 = MAX_ATTEMPTS`. -/
theorem C1_exhaustion_boundary_witness :
    MAX_ATTEMPTS ≤ (3 : Int) ∧
    calculateRetry defaultValidator (fun _ => 0) none 0
        ⟨some "customer-did-not-answer", 3, none, none⟩ =
      .exhausted ⟨"max_attempts_reached", 3, MAX_ATTEMPTS, "send_sms_fallback"⟩ :=
  ⟨by decide, C1_exhaustion_boundary.2 defaultValidator (fun _ => 0) none 0
    (some "customer-did-not-answer") none none 3 (by decide)⟩

/-- C8: an attempt index at or beyond the length of a reason's delay list
clamps to the last configured delay; in particular attempt index 5 and
attempt index 2 give the same delay for every reason (all lists have three
entries). -/
theorem C8_delay_clamping :
    (∀ (r : Option String) (i : Int), ((delaysFor r).length : Int) ≤ i →
      delayForAttempt r i = (delaysFor r).getLastD 0) ∧
    (∀ r : Option String, delayForAttempt r 5 = delayForAttempt r 2) := by
  constructor
  · intro r i h
    exact jsIndexOrLast_of_ge _ _ h
  · intro r
    rcases delaysFor_cases r with h | h | h | h | h <;>
      · unfold delayForAttempt
        rw [h]
        decide

/-- Witness for C8 at reason `customer-did-not-answer` and index 5. -/
theorem C8_delay_clamping_witness :
    ((delaysFor (some "customer-did-not-answer")).length : Int) ≤ 5 ∧
    delayForAttempt (some "customer-did-not-answer") 5 =
      (delaysFor (some "customer-did-not-answer")).getLastD 0 :=
  ⟨by decide, C8_delay_clamping.1 (some "customer-did-not-answer") 5 (by decide)⟩

/-- C3: below the attempt ceiling, a raw target outside business hours yields
`wasAdjustedForBusinessHours = true`, next call time
`getNextValidCallingTime target`, and a reported delay equal to the actual
rounded gap between `now` and the adjusted instant; a raw target inside
business hours yields `wasAdjustedForBusinessHours = false` and the target
itself with the nominal delay. -/
theorem C3_adjustment_reporting :
    ∀ (cfg : CallingHoursConfig) (zoneOffset : String → Int) (env : Option String)
      (now : Int) (o : RetryOptions), o.currentAttempts < MAX_ATTEMPTS →
      ((isWithinCallingHours cfg
          (now + delayForAttempt o.endedReason o.currentAttempts * 60)
          (zoneOffset (resolvedTimezone env o)) = false →
        calculateRetry cfg zoneOffset env now o = .retry
          ⟨o.currentAttempts + 1, MAX_ATTEMPTS,
           delayForAttempt o.endedReason o.currentAttempts,
           roundMinutes (getNextValidCallingTime cfg
             (now + delayForAttempt o.endedReason o.currentAttempts * 60)
             (zoneOffset (resolvedTimezone env o)) - now),
           getNextValidCallingTime cfg
             (now + delayForAttempt o.endedReason o.currentAttempts * 60)
             (zoneOffset (resolvedTimezone env o)),
           resolvedTimezone env o, true, o.endedReason⟩) ∧
       (isWithinCallingHours cfg
          (now + delayForAttempt o.endedReason o.currentAttempts * 60)
          (zoneOffset (resolvedTimezone env o)) = true →
        calculateRetry cfg zoneOffset env now o = .retry
          ⟨o.currentAttempts + 1, MAX_ATTEMPTS,
           delayForAttempt o.endedReason o.currentAttempts,
           delayForAttempt o.endedReason o.currentAttempts,
           now + delayForAttempt o.endedReason o.currentAttempts * 60,
           resolvedTimezone env o, false, o.endedReason⟩)) := by
  intro cfg zo env now o h
  constructor
  · intro hout
    simp only [calculateRetry, calculateDelayWithinHours]
    rw [if_neg (not_le.mpr h), hout]
    simp
  · intro hin
    simp only [calculateRetry, calculateDelayWithinHours]
    rw [if_neg (not_le.mpr h), hin]
    simp

/-- Witness for C3: attempt 0, reason `customer-did-not-answer`, now Friday
1970-01-02 18:45 UTC (153900), offset 0; the 30-minute target lands Friday
19:15, outside the window, and is adjusted to Monday 09:00 (378000) with a
real gap of 3735 minutes. -/
theorem C3_adjustment_reporting_witness :
    ((⟨some "customer-did-not-answer", 0, none, some "Europe/London"⟩ :
        RetryOptions).currentAttempts < MAX_ATTEMPTS) ∧
    isWithinCallingHours defaultValidator
      (153900 + delayForAttempt (some "customer-did-not-answer") 0 * 60) 0 = false ∧
    calculateRetry defaultValidator (fun _ => 0) none 153900
        ⟨some "customer-did-not-answer", 0, none, some "Europe/London"⟩ = .retry
      ⟨0 + 1, MAX_ATTEMPTS,
       delayForAttempt (some "customer-did-not-answer") 0,
       roundMinutes (getNextValidCallingTime defaultValidator
         (153900 + delayForAttempt (some "customer-did-not-answer") 0 * 60) 0 - 153900),
       getNextValidCallingTime defaultValidator
         (153900 + delayForAttempt (some "customer-did-not-answer") 0 * 60) 0,
       "Europe/London", true, some "customer-did-not-answer"⟩ :=
  ⟨by decide, by decide,
    (C3_adjustment_reporting defaultValidator (fun _ => 0) none 153900
      ⟨some "customer-did-not-answer", 0, none, some "Europe/London"⟩ (by decide)).1
      (by decide)⟩

/-- C9 counterexample: `calculateRetry` does not reject a strictly negative
`attemptsSoFar`.  At `currentAttempts = -1` it returns a normal Retry
decision (the negative array index misses, so the delay clamps to the last
table entry, 240 minutes for `customer-did-not-answer`). -/
theorem C9_counterexample_negative_not_rejected :
    calculateRetry defaultValidator (fun _ => 0) none 378000
        ⟨some "customer-did-not-answer", -1, none, some "Europe/London"⟩ =
      .retry ⟨0, 3, 240, 240, 392400, "Europe/London", false,
        some "customer-did-not-answer"⟩ := by
  decide

/-- C9 (amended): a strictly negative `attemptsSoFar` is not rejected; it
falls below the ceiling, the negative index into the delay list misses and
clamps to the last configured delay, and a Retry decision with
`attempts = attemptsSoFar + 1` is returned. -/
theorem C9_amended_negative_accepted :
    ∀ (cfg : CallingHoursConfig) (zoneOffset : String → Int) (env : Option String)
      (now : Int) (reason phone tzp : Option String) (a : Int), a < 0 →
      ∃ info : RetryInfo,
        calculateRetry cfg zoneOffset env now ⟨reason, a, phone, tzp⟩ = .retry info ∧
        info.attempts = a + 1 ∧
        info.originalDelayMinutes = (delaysFor reason).getLastD 0 := by
  intro cfg zo env now reason phone tzp a ha
  have hd : delayForAttempt reason a = (delaysFor reason).getLastD 0 := by
    rw [delayForAttempt, jsIndexOrLast, if_neg (by omega : ¬ (0 : Int) ≤ a)]
  simp only [calculateRetry]
  rw [if_neg (by simp only [MAX_ATTEMPTS]; omega)]
  exact ⟨_, rfl, rfl, hd⟩

/-- Witness for the amended C9 at `attemptsSoFar = -1`. -/
theorem C9_amended_negative_accepted_witness :
    ((-1 : Int) < 0) ∧
    ∃ info : RetryInfo,
      calculateRetry defaultValidator (fun _ => 0) none 378000
          ⟨some "customer-did-not-answer", -1, none, some "Europe/London"⟩ = .retry info ∧
      info.attempts = -1 + 1 ∧
      info.originalDelayMinutes = (delaysFor (some "customer-did-not-answer")).getLastD 0 :=
  ⟨by decide, C9_amended_negative_accepted defaultValidator (fun _ => 0) none 378000
    (some "customer-did-not-answer") none (some "Europe/London") (-1) (by decide)⟩

/-- C4 counterexample: none of the configuration errors is rejected.  The
timezone table carries the dialing code `'+93'` twice, yet object
construction succeeds (silently collapsing the duplicate); and the validator
constructor accepts a window with start 19:00 after end 09:00, returning a
normal configuration instead of refusing. -/
theorem C4_counterexample_not_rejected :
    (rawTimezoneEntries.map Prod.fst).count "+93" = 2 ∧
    jsObjectFromEntries rawTimezoneEntries = TIMEZONE_MAP ∧
    mkCallingHoursValidator (some "19:00") (some "09:00") none =
      some ⟨19, 0, 9, 0, [1, 2, 3, 4, 5]⟩ ∧
    mkCallingHoursValidator none none (some ",") = some ⟨9, 0, 19, 0, []⟩ :=
  ⟨by decide, TIMEZONE_MAP_eq_jsObject, by decide, by decide⟩

/-- C4 (amended): configuration errors are silently accepted, not rejected at
startup.  A duplicate dialing-code prefix collapses to a single key by
object-literal semantics (the table still serves lookups); an inverted
business-hours window (start 19:00, end 09:00) constructs a validator under
which no instant is ever callable, so the error surfaces only in runtime
behaviour; and an all-`NaN` weekday list yields an empty allowed-day set. -/
theorem C4_amended_silently_accepted :
    (timezoneKeys.count "+93" = 1 ∧ jsGet TIMEZONE_MAP "+93" = "Asia/Kabul") ∧
    (mkCallingHoursValidator (some "19:00") (some "09:00") none ≠ none ∧
      ∀ t tzOffset : Int,
        isWithinCallingHours ⟨19, 0, 9, 0, [1, 2, 3, 4, 5]⟩ t tzOffset = false) ∧
    mkCallingHoursValidator none none (some ",") = some ⟨9, 0, 19, 0, []⟩ := by
  refine ⟨⟨by decide, by decide⟩, ⟨by decide, ?_⟩, by decide⟩
  intro t tzOffset
  rcases hb : isWithinCallingHours ⟨19, 0, 9, 0, [1, 2, 3, 4, 5]⟩ t tzOffset with _ | _
  · rfl
  · exfalso
    rcases (isWithinCallingHours_iff _ t tzOffset).mp hb with ⟨-, h2, h3⟩
    have e1 : windowStartSecs ⟨19, 0, 9, 0, [1, 2, 3, 4, 5]⟩ = 68400 := by decide
    have e2 : windowEndSecs ⟨19, 0, 9, 0, [1, 2, 3, 4, 5]⟩ = 32400 := by decide
    rw [e1] at h2
    rw [e2] at h3
    omega

end RetryEngine
